import Mathlib

/-!
Shallow embedding of `pymobiledevice3/__main__.py`: the lazy command-group
registry (`Pmd3Cli`) and the error-classification / retry dispatcher (`main`).

Modelling conventions:
* A Python value that may be `None` (as appears in `sys.argv` after the code
  appends `e.identifier`) is an `Option String`.
* The underlying `cli()` call is opaque device-protocol work; it is modelled
  by an oracle `List (Option String) → Option PyExc` mapping the current
  process-global `sys.argv` to the exception it raises (`none` = success).
* `main` recurses without any depth bound, so it is embedded with explicit
  fuel; `none` means the recursion did not terminate within the given fuel.
-/

/-- A Python `str`-or-`None` value, as stored in the modelled `sys.argv`
(the code appends `e.identifier`, which may be `None`). -/
abbrev PyStr := Option String

/-- The exception kinds named in `main`'s handler chain, the exceptions the
`Pmd3Cli` resolution path can raise (`ImportError` via
`importlib.import_module`, `AttributeError` via `getattr`, `ValueError` via
tuple unpacking of `split`), and `other` for any unclassified kind. -/
inductive PyExc where
  | NoDeviceConnectedError
  | ConnectionAbortedError
  | NotPairedError
  | UserDeniedPairingError
  | PairingDialogResponsePendingError
  | SetProhibitedError
  | MissingValueError
  | DeviceHasPasscodeSetError
  | DeveloperModeError (msg : String)
  | ConnectionFailedToUsbmuxdError
  | MessageNotSupportedError
  | InternalError
  | DeveloperModeIsNotEnabledError
  | InvalidServiceError (identifier : Option String)
  | RSDRequiredError (identifier : Option String)
  | NoDeviceSelectedError
  | PasswordRequiredError
  | AccessDeniedError
  | BrokenPipeError
  | TunneldConnectionError
  | DeviceNotFoundError (udid : String)
  | NotEnoughDiskSpaceError
  | DeprecationError
  | OSNotSupportedError (os_name : String)
  | FeatureNotSupportedError (feature : String) (os_name : String)
  | ImportError (module : String)
  | AttributeError (module : String) (attr : String)
  | ValueError
  | other (name : String)
deriving DecidableEq, Repr

/-- The static diagnostic emitted when an `InvalidServiceError` is not
retried (module-level constant `INVALID_SERVICE_MESSAGE`). -/
def INVALID_SERVICE_MESSAGE : String :=
  "Failed to start service. Possible reasons are:\n- If you were trying to access a developer service (developer subcommand):\n    - Make sure the DeveloperDiskImage/PersonalizedImage is mounted via:\n      > python3 -m pymobiledevice3 mounter auto-mount\n\n    - If your device iOS version >= 17.0:\n        - Make sure you passed the --rsd option to the subcommand\n          https://github.com/doronz88/pymobiledevice3#working-with-developer-tools-ios--170\n\n- Apple removed this service\n\n- A bug. Please file a bug report:\n  https://github.com/doronz88/pymobiledevice3/issues/new?assignees=&labels=&projects=&template=bug_report.md&title=\n"

/-- Warning logged before an unconditional retry for `RSDRequiredError`. -/
def rsdRetryMessage : String :=
  "Trying again over tunneld since RSD is required for this command"

/-- Warning logged before a conditional retry for `InvalidServiceError`. -/
def devRetryMessage : String :=
  "Trying again over tunneld since it is a developer command"

/-- Modelled from the spec: the OS-specific diagnostic string
`get_os_utils().access_denied_error`; `pymobiledevice3.osu.os_utils` is an
external collaborator outside `src/`. -/
def access_denied_error : String := "access denied"

/-- Marker for output produced by `traceback.print_exc()`. -/
def tracebackMarker : String := "<traceback>"

/-- How one invocation of `main` ends: it returns normally, or an exception
not named in the handler chain propagates out uncaught. -/
inductive MainResult where
  | ok
  | uncaught (e : PyExc)
deriving DecidableEq, Repr

/-- Observable outcome of one terminated run of `main`:
the diagnostic lines emitted via the logger (or `traceback.print_exc`),
the final process-global `sys.argv`, the number of recursive
re-invocations performed, and how the run ended. -/
structure MainOutcome where
  msgs : List String
  argv : List PyStr
  retries : Nat
  result : MainResult
deriving DecidableEq, Repr

/-- Whether an exception kind is named in `main`'s `except` chain
(lines 252 to 317 of `__main__.py`). -/
def handledByMain : PyExc → Bool
  | PyExc.ImportError _ => false
  | PyExc.AttributeError _ _ => false
  | PyExc.ValueError => false
  | PyExc.other _ => false
  | _ => true

/-- The dispatcher `main()`. `oracle` models the opaque `cli()` call: given
the current process-global `sys.argv`, it returns the structured exception
that `cli()` raises there, or `none` on success. The Python function recurses
with no depth bound (`return main()` after `sys.argv += [...]`), so the
embedding takes fuel; a `none` result means the recursion did not terminate
within the fuel. The handler arms follow the source's `except` chain. -/
def mainFuel (oracle : List PyStr → Option PyExc) : Nat → List PyStr → Option MainOutcome
  | 0, _ => none
  | fuel + 1, argv =>
    match oracle argv with
    | none => some ⟨[], argv, 0, MainResult.ok⟩
    | some e =>
      match e with
      | PyExc.NoDeviceConnectedError =>
          some ⟨["Device is not connected"], argv, 0, MainResult.ok⟩
      | PyExc.ConnectionAbortedError =>
          some ⟨["Device was disconnected"], argv, 0, MainResult.ok⟩
      | PyExc.NotPairedError =>
          some ⟨["Device is not paired"], argv, 0, MainResult.ok⟩
      | PyExc.UserDeniedPairingError =>
          some ⟨["User refused to trust this computer"], argv, 0, MainResult.ok⟩
      | PyExc.PairingDialogResponsePendingError =>
          some ⟨["Waiting for user dialog approval"], argv, 0, MainResult.ok⟩
      | PyExc.SetProhibitedError =>
          some ⟨["lockdownd denied the access"], argv, 0, MainResult.ok⟩
      | PyExc.MissingValueError =>
          some ⟨["No such value"], argv, 0, MainResult.ok⟩
      | PyExc.DeviceHasPasscodeSetError =>
          some ⟨["Cannot enable developer-mode when passcode is set"], argv, 0, MainResult.ok⟩
      | PyExc.DeveloperModeError msg =>
          some ⟨["Failed to enable developer-mode. Error: " ++ msg], argv, 0, MainResult.ok⟩
      | PyExc.ConnectionFailedToUsbmuxdError =>
          some ⟨["Failed to connect to usbmuxd socket. Make sure it\x27s running."], argv, 0, MainResult.ok⟩
      | PyExc.MessageNotSupportedError =>
          some ⟨["Message not supported for this iOS version", tracebackMarker], argv, 0, MainResult.ok⟩
      | PyExc.InternalError =>
          some ⟨["Internal Error"], argv, 0, MainResult.ok⟩
      | PyExc.DeveloperModeIsNotEnabledError =>
          some ⟨["Developer Mode is disabled. You can try to enable it using: python3 -m pymobiledevice3 amfi enable-developer-mode"], argv, 0, MainResult.ok⟩
      | PyExc.InvalidServiceError identifier =>
          if identifier.isSome && argv.contains (some "developer") && !(argv.contains (some "--tunnel")) then
            Option.map (fun r => ⟨devRetryMessage :: r.msgs, r.argv, r.retries + 1, r.result⟩)
              (mainFuel oracle fuel (argv ++ [some "--tunnel", identifier]))
          else
            some ⟨[INVALID_SERVICE_MESSAGE], argv, 0, MainResult.ok⟩
      | PyExc.RSDRequiredError identifier =>
          Option.map (fun r => ⟨rsdRetryMessage :: r.msgs, r.argv, r.retries + 1, r.result⟩)
            (mainFuel oracle fuel (argv ++ [some "--tunnel", identifier]))
      | PyExc.NoDeviceSelectedError =>
          some ⟨[], argv, 0, MainResult.ok⟩
      | PyExc.PasswordRequiredError =>
          some ⟨["Device is password protected. Please unlock and retry"], argv, 0, MainResult.ok⟩
      | PyExc.AccessDeniedError =>
          some ⟨[access_denied_error], argv, 0, MainResult.ok⟩
      | PyExc.BrokenPipeError =>
          some ⟨[tracebackMarker], argv, 0, MainResult.ok⟩
      | PyExc.TunneldConnectionError =>
          some ⟨["Unable to connect to Tunneld. You can start one using:\nsudo python3 -m pymobiledevice3 remote tunneld"], argv, 0, MainResult.ok⟩
      | PyExc.DeviceNotFoundError udid =>
          some ⟨["Device not found: " ++ udid], argv, 0, MainResult.ok⟩
      | PyExc.NotEnoughDiskSpaceError =>
          some ⟨["Not enough disk space"], argv, 0, MainResult.ok⟩
      | PyExc.DeprecationError =>
          some ⟨["failed to query MobileGestalt, MobileGestalt deprecated (iOS >= 17.4)."], argv, 0, MainResult.ok⟩
      | PyExc.OSNotSupportedError os_name =>
          some ⟨["Unsupported OS - " ++ os_name ++ ". To add support, consider contributing at https://github.com/doronz88/pymobiledevice3."], argv, 0, MainResult.ok⟩
      | PyExc.FeatureNotSupportedError feature os_name =>
          some ⟨["Missing implementation of `" ++ feature ++ "` on `" ++ os_name ++ "`. To add support, consider contributing at https://github.com/doronz88/pymobiledevice3."], argv, 0, MainResult.ok⟩
      | e => some ⟨[], argv, 0, MainResult.uncaught e⟩

/-- An opaque handle to one click command of an external collaborator
command group. -/
structure Cmd where
  id : Nat
deriving DecidableEq, Repr

/-- A resolved command-group implementation (an external `click.Group`):
its command table, keyed by command name. -/
structure ImplGroup where
  cmds : List (String × Cmd)
deriving DecidableEq, Repr

/-- `click.Group.get_command` of the resolved implementation: a plain
dictionary lookup, `self.commands.get(cmd_name)`. -/
def ImplGroup.get_command (g : ImplGroup) (cmd_name : String) : Option Cmd :=
  g.cmds.lookup cmd_name

/-- `click.Group.list_commands` of the resolved implementation: the command
names of its table (click sorts them; order is irrelevant here). -/
def ImplGroup.list_commands (g : ImplGroup) : List String :=
  g.cmds.map Prod.fst

/-- A Python module, reduced to the attributes that hold command groups. -/
structure PyModule where
  attrs : List (String × ImplGroup)
deriving DecidableEq, Repr

/-- Process-level import state: the modules that exist and can be imported
(`available`), the `sys.modules` cache (`loaded`), and the trace of modules
actually executed, in order (`loadEvents`). -/
structure ImportState where
  available : List (String × PyModule)
  loaded : List (String × PyModule)
  loadEvents : List String
deriving DecidableEq, Repr

/-- `importlib.import_module`: a `sys.modules` hit returns the cached module
with no load; otherwise the module is executed once and cached, or
`ImportError` is raised when it does not exist. -/
def import_module (st : ImportState) (name : String) : Except PyExc (PyModule × ImportState) :=
  match st.loaded.lookup name with
  | some m => Except.ok (m, st)
  | none =>
    match st.available.lookup name with
    | none => Except.error (PyExc.ImportError name)
    | some m =>
        Except.ok (m, ⟨st.available, st.loaded ++ [(name, m)], st.loadEvents ++ [name]⟩)

/-- Find the first occurrence of the separator character: everything before
it and everything after it, or `none` when it does not occur. -/
def splitFirstAux (sep : Char) : List Char → Option (List Char × List Char)
  | [] => none
  | c :: cs =>
      if c = sep then some ([], cs)
      else (splitFirstAux sep cs).map (fun p => (c :: p.1, p.2))

/-- Python's `s.split(sep, 1)` for the one-character separator the source
uses (`":"`): split at the first occurrence only. -/
def split1 (s : String) (sep : Char) : List String :=
  match splitFirstAux sep s.toList with
  | none => [s]
  | some (a, b) => [String.mk a, String.mk b]

/-- The lazy group provider `Pmd3Cli`: `__init__` stores the locator string
`_import_name`; `impgCacheSlot` is the backing slot of the
`functools.cached_property` `_impg`, empty until first resolution. -/
structure Pmd3Cli where
  _import_name : String
  impgCacheSlot : Option ImplGroup
deriving DecidableEq, Repr

/-- `Pmd3Cli.__init__(import_name, ...)`: stores the locator and performs
no import at all (it does not even touch the `ImportState`). -/
def Pmd3Cli.init (import_name : String) : Pmd3Cli := ⟨import_name, none⟩

/-- The `_impg` cached property: on a cache hit, return the stored
implementation unchanged; otherwise split the locator at the first colon into
module path and attribute name, import the module and read the attribute
(the source does this twice, timing the second lookup), cache the result.
Errors: `ImportError` for a missing module, `AttributeError` for a missing
attribute, `ValueError` when the locator has no colon (tuple unpacking). -/
def Pmd3Cli.impg (c : Pmd3Cli) (st : ImportState) : Except PyExc (ImplGroup × Pmd3Cli × ImportState) :=
  match c.impgCacheSlot with
  | some g => Except.ok (g, c, st)
  | none =>
    match split1 c._import_name ':' with
    | [module, name] =>
      match import_module st module with
      | Except.error e => Except.error e
      | Except.ok (mod, st1) =>
        match mod.attrs.lookup name with
        | none => Except.error (PyExc.AttributeError module name)
        | some _ =>
          match import_module st1 module with
          | Except.error e => Except.error e
          | Except.ok (mod2, st2) =>
            match mod2.attrs.lookup name with
            | none => Except.error (PyExc.AttributeError module name)
            | some g2 => Except.ok (g2, ⟨c._import_name, some g2⟩, st2)
    | _ => Except.error PyExc.ValueError

/-- `Pmd3Cli.get_command`: resolve `_impg` if needed, then delegate the
lookup to the implementation (lines 162 to 163; the single-command fallback
of the commented-out predecessor class is absent). -/
def Pmd3Cli.get_command (c : Pmd3Cli) (st : ImportState) (cmd_name : String) :
    Except PyExc (Option Cmd × Pmd3Cli × ImportState) :=
  match c.impg st with
  | Except.error e => Except.error e
  | Except.ok (g, c2, st2) => Except.ok (g.get_command cmd_name, c2, st2)

/-- `Pmd3Cli.list_commands`: resolve `_impg` if needed, then delegate. -/
def Pmd3Cli.list_commands (c : Pmd3Cli) (st : ImportState) :
    Except PyExc (List String × Pmd3Cli × ImportState) :=
  match c.impg st with
  | Except.error e => Except.error e
  | Except.ok (g, c2, st2) => Except.ok (g.list_commands, c2, st2)

/-- Registry entry: locator (relative to `pymobiledevice3.cli`) plus a short
help string (`ClickGroup` namedtuple). -/
structure ClickGroup where
  import_group : String
  short_help : String
deriving DecidableEq, Repr

/-- The static registry `CLI_GROUPS`: public group name to descriptor, in
registration order. -/
def CLI_GROUPS : List (String × ClickGroup) :=
  [("activation", ⟨"activation:activation", "activation options"⟩),
   ("afc", ⟨"afc:afc", "FileSystem utils"⟩),
   ("amfi", ⟨"amfi:amfi", "amfi options"⟩),
   ("apps", ⟨"apps:apps", "application options"⟩),
   ("backup2", ⟨"backup:backup2", "backup utils"⟩),
   ("bonjour", ⟨"bonjour:bonjour_cli", "bonjour options"⟩),
   ("companion", ⟨"companion_proxy:companion", "companion options"⟩),
   ("crash", ⟨"crash:crash", "crash report options"⟩),
   ("developer", ⟨"developer:developer", "developer options"⟩),
   ("diagnostics", ⟨"diagnostics:diagnostics", "diagnostic options"⟩),
   ("lockdown", ⟨"lockdown:lockdown_group", "lockdown options"⟩),
   ("mounter", ⟨"mounter:mounter", "mounter options"⟩),
   ("notification", ⟨"notification:notification", "notification options"⟩),
   ("processes", ⟨"processes:processes", "processes cli"⟩),
   ("profile", ⟨"profile:profile_group", "foo"⟩),
   ("provision", ⟨"provision:provision", "provision options"⟩),
   ("remote", ⟨"remote:remote_cli", "remote options"⟩),
   ("restore", ⟨"restore:restore", "restore options"⟩),
   ("springboard", ⟨"springboard:springboard", "springboard options"⟩),
   ("syslog", ⟨"syslog:syslog", "syslog options"⟩),
   ("usbmux", ⟨"usbmux:usbmux_cli", "usbmuxd options"⟩),
   ("webinspector", ⟨"webinspector:webinspector", "webinspector options"⟩)]

/-! Concrete oracles and fixtures used by witnesses and counterexamples. -/

/-- The argv of the spec's developer scenario. -/
def devArgv : List PyStr := [some "developer", some "dvt", some "ls"]

/-- `cli()` behavior: raise `InvalidServiceError(identifier="UDID1")` until
the connectivity flag is in argv, then succeed. -/
def devOracle (argv : List PyStr) : Option PyExc :=
  if argv.contains (some "--tunnel") then none
  else some (PyExc.InvalidServiceError (some "UDID1"))

/-- `cli()` behavior: raise `RSDRequiredError("ABCD-1234")` until the
connectivity flag appears twice, so the failure recurs once after the first
retry. -/
def rsdLoopOracle (argv : List PyStr) : Option PyExc :=
  if 2 ≤ argv.count (some "--tunnel") then none
  else some (PyExc.RSDRequiredError (some "ABCD-1234"))

/-- `cli()` behavior: raise `RSDRequiredError` with `identifier = None` until
argv has grown to three entries. -/
def rsdNoneOracle (argv : List PyStr) : Option PyExc :=
  if 3 ≤ argv.length then none else some (PyExc.RSDRequiredError none)

/-- A resolved implementation exposing exactly one command, named `"foo"`. -/
def gFoo : ImplGroup := ⟨[("foo", ⟨0⟩)]⟩

/-- A provider whose cached-property slot already holds `gFoo`. -/
def cFoo : Pmd3Cli := ⟨"pymobiledevice3.cli.foo:foo", some gFoo⟩

/-- An import state with nothing loaded and nothing importable. -/
def st0 : ImportState := ⟨[], [], []⟩

/-! Claim theorems. -/

/-- C8: on a `NoDeviceSelectedError` failure, `main` emits no diagnostic at
all, performs no retry, and returns normally (success-like termination). -/
theorem C8_no_device_selected_silent (oracle : List PyStr → Option PyExc)
    (argv : List PyStr) (fuel : Nat)
    (h : oracle argv = some PyExc.NoDeviceSelectedError) :
    mainFuel oracle (fuel + 1) argv = some ⟨[], argv, 0, MainResult.ok⟩ := by
  simp [mainFuel, h]

/-- Witness for C8 at a concrete oracle and argv. -/
theorem C8_witness :
    mainFuel (fun _ => some PyExc.NoDeviceSelectedError) 1 [some "usbmux"] =
      some ⟨[], [some "usbmux"], 0, MainResult.ok⟩ :=
  C8_no_device_selected_silent (fun _ => some PyExc.NoDeviceSelectedError) [some "usbmux"] 0 rfl

/-- C7: a failure whose kind is not named in `main`'s handler chain is not
caught: it propagates out of `main` uncaught, with no friendly message
emitted. -/
theorem C7_unclassified_propagates (oracle : List PyStr → Option PyExc)
    (argv : List PyStr) (fuel : Nat) (e : PyExc)
    (hu : handledByMain e = false) (h : oracle argv = some e) :
    mainFuel oracle (fuel + 1) argv = some ⟨[], argv, 0, MainResult.uncaught e⟩ := by
  cases e <;> simp_all [mainFuel, handledByMain]

/-- Witness for C7 at a concrete unclassified exception. -/
theorem C7_witness :
    mainFuel (fun _ => some (PyExc.other "RuntimeError")) 1 [] =
      some ⟨[], [], 0, MainResult.uncaught (PyExc.other "RuntimeError")⟩ :=
  C7_unclassified_propagates (fun _ => some (PyExc.other "RuntimeError")) [] 0
    (PyExc.other "RuntimeError") rfl rfl

/-- C10: on `RSDRequiredError`, `main` retries unconditionally: it appends
the connectivity flag and `e.identifier` (which may be `None`) to the
process-global argv and re-invokes itself, regardless of whether the flag is
already present and regardless of whether the identifier is `None`. -/
theorem C10_rsd_retry_unconditional (oracle : List PyStr → Option PyExc)
    (argv : List PyStr) (fuel : Nat) (identifier : Option String)
    (h : oracle argv = some (PyExc.RSDRequiredError identifier)) :
    mainFuel oracle (fuel + 1) argv =
      Option.map (fun r => ⟨rsdRetryMessage :: r.msgs, r.argv, r.retries + 1, r.result⟩)
        (mainFuel oracle fuel (argv ++ [some "--tunnel", identifier])) := by
  simp [mainFuel, h]

/-- Witness for C10: the flag is already present and the identifier is
`None`, yet the retry still happens and the rewritten argv carries a `None`
element right after the flag. -/
theorem C10_witness :
    (mainFuel rsdNoneOracle 2 [some "--tunnel"] =
      Option.map (fun r => ⟨rsdRetryMessage :: r.msgs, r.argv, r.retries + 1, r.result⟩)
        (mainFuel rsdNoneOracle 1 ([some "--tunnel"] ++ [some "--tunnel", none]))) ∧
    mainFuel rsdNoneOracle 2 [some "--tunnel"] =
      some ⟨[rsdRetryMessage], [some "--tunnel", some "--tunnel", none], 1, MainResult.ok⟩ :=
  ⟨C10_rsd_retry_unconditional rsdNoneOracle [some "--tunnel"] 1 none rfl, rfl⟩

/-- Unfolding lemma: one `main` step on an `InvalidServiceError` whose retry
condition evaluates to true is the retry re-invocation. -/
theorem invalid_retry_step (oracle : List PyStr → Option PyExc)
    (argv : List PyStr) (fuel : Nat) (identifier : Option String)
    (h : oracle argv = some (PyExc.InvalidServiceError identifier))
    (hb : (identifier.isSome && argv.contains (some "developer")
        && !(argv.contains (some "--tunnel"))) = true) :
    mainFuel oracle (fuel + 1) argv =
      Option.map (fun r => ⟨devRetryMessage :: r.msgs, r.argv, r.retries + 1, r.result⟩)
        (mainFuel oracle fuel (argv ++ [some "--tunnel", identifier])) := by
  simp only [mainFuel, h]
  rw [hb]
  simp

/-- Unfolding lemma: one `main` step on an `InvalidServiceError` whose retry
condition evaluates to false emits the static message and stops. -/
theorem invalid_message_step (oracle : List PyStr → Option PyExc)
    (argv : List PyStr) (fuel : Nat) (identifier : Option String)
    (h : oracle argv = some (PyExc.InvalidServiceError identifier))
    (hb : (identifier.isSome && argv.contains (some "developer")
        && !(argv.contains (some "--tunnel"))) = false) :
    mainFuel oracle (fuel + 1) argv =
      some ⟨[INVALID_SERVICE_MESSAGE], argv, 0, MainResult.ok⟩ := by
  simp only [mainFuel, h]
  rw [hb]
  simp

/-- C3: on `InvalidServiceError`, `main` retries exactly when the failure
carries an identifier (`e.identifier is not None`), argv contains the
`developer` token, and the `--tunnel` flag is absent; otherwise it emits the
static `INVALID_SERVICE_MESSAGE` and does not retry. -/
theorem C3_invalid_service_conditional (oracle : List PyStr → Option PyExc)
    (argv : List PyStr) (fuel : Nat) (identifier : Option String)
    (h : oracle argv = some (PyExc.InvalidServiceError identifier)) :
    ((identifier ≠ none ∧ some "developer" ∈ argv ∧ some "--tunnel" ∉ argv) →
       mainFuel oracle (fuel + 1) argv =
         Option.map (fun r => ⟨devRetryMessage :: r.msgs, r.argv, r.retries + 1, r.result⟩)
           (mainFuel oracle fuel (argv ++ [some "--tunnel", identifier]))) ∧
    (¬(identifier ≠ none ∧ some "developer" ∈ argv ∧ some "--tunnel" ∉ argv) →
       mainFuel oracle (fuel + 1) argv =
         some ⟨[INVALID_SERVICE_MESSAGE], argv, 0, MainResult.ok⟩) := by
  constructor
  · intro hc
    obtain ⟨h1, h2, h3⟩ := hc
    have hb : (identifier.isSome && argv.contains (some "developer")
        && !(argv.contains (some "--tunnel"))) = true := by
      simp [Option.isSome_iff_ne_none, h1, h2, h3, List.contains]
    exact invalid_retry_step oracle argv fuel identifier h hb
  · intro hc
    have hb : (identifier.isSome && argv.contains (some "developer")
        && !(argv.contains (some "--tunnel"))) = false := by
      rcases not_and_or.mp hc with h1 | h23
      · simp [Option.isSome_iff_ne_none, not_not.mp h1]
      · rcases not_and_or.mp h23 with h2 | h3
        · simp [List.contains, h2]
        · simp [List.contains, not_not.mp h3]
    exact invalid_message_step oracle argv fuel identifier h hb

/-- Witness for C3: both branches at concrete inputs — with the developer
token the retry happens; without it the static message is emitted. -/
theorem C3_witness :
    (mainFuel devOracle 2 devArgv =
      Option.map (fun r => ⟨devRetryMessage :: r.msgs, r.argv, r.retries + 1, r.result⟩)
        (mainFuel devOracle 1 (devArgv ++ [some "--tunnel", some "UDID1"]))) ∧
    (mainFuel devOracle 2 [some "syslog", some "live"] =
      some ⟨[INVALID_SERVICE_MESSAGE], [some "syslog", some "live"], 0, MainResult.ok⟩) :=
  ⟨(C3_invalid_service_conditional devOracle devArgv 1 (some "UDID1") rfl).1
      (by refine ⟨by simp, by simp [devArgv], by simp [devArgv]⟩),
   (C3_invalid_service_conditional devOracle [some "syslog", some "live"] 1 (some "UDID1") rfl).2
      (by intro hc; exact absurd hc.2.1 (by simp))⟩

/-- C6: with original argv `["developer", "dvt", "ls"]` and an
`InvalidServiceError` carrying identifier `"UDID1"`, the re-invocation runs
on exactly `["developer", "dvt", "ls", "--tunnel", "UDID1"]` — the flag and
the identifier appended, in that order, at the end. -/
theorem C6_reinvocation_argv_exact (oracle : List PyStr → Option PyExc) (fuel : Nat)
    (h : oracle devArgv = some (PyExc.InvalidServiceError (some "UDID1"))) :
    mainFuel oracle (fuel + 1) devArgv =
      Option.map (fun r => ⟨devRetryMessage :: r.msgs, r.argv, r.retries + 1, r.result⟩)
        (mainFuel oracle fuel
          [some "developer", some "dvt", some "ls", some "--tunnel", some "UDID1"]) := by
  have := invalid_retry_step oracle devArgv fuel (some "UDID1") h rfl
  simpa [devArgv] using this

/-- Witness for C6 at the concrete oracle of the scenario. -/
theorem C6_witness :
    mainFuel devOracle 2 devArgv =
      Option.map (fun r => ⟨devRetryMessage :: r.msgs, r.argv, r.retries + 1, r.result⟩)
        (mainFuel devOracle 1
          [some "developer", some "dvt", some "ls", some "--tunnel", some "UDID1"]) :=
  C6_reinvocation_argv_exact devOracle 1 rfl

/-- The outcome of `main` under `devOracle` starting from `devArgv`:
one retry, then success, with the rewritten argv left in place. -/
def devRun : MainOutcome :=
  ⟨[devRetryMessage],
   [some "developer", some "dvt", some "ls", some "--tunnel", some "UDID1"],
   1, MainResult.ok⟩

/-- `devOracle` raises only invalid-service failures. -/
theorem devOracle_only_invalid :
    ∀ a e, devOracle a = some e → ∃ i, e = PyExc.InvalidServiceError i := by
  intro a e h
  unfold devOracle at h
  split at h
  · exact absurd h (by simp)
  · exact ⟨some "UDID1", (Option.some.inj h).symm⟩

/-- With `--tunnel` already in argv, an invalid-service-only `cli()` never
triggers a retry: the conditional predicate is false at once. -/
theorem invalid_only_no_retry_with_tunnel (oracle : List PyStr → Option PyExc)
    (honly : ∀ a e, oracle a = some e → ∃ i, e = PyExc.InvalidServiceError i)
    (fuel : Nat) (argv : List PyStr) (r : MainOutcome)
    (htun : argv.contains (some "--tunnel") = true)
    (h : mainFuel oracle fuel argv = some r) : r.retries = 0 := by
  cases fuel with
  | zero => simp [mainFuel] at h
  | succ n =>
    cases horc : oracle argv with
    | none =>
      simp only [mainFuel, horc, Option.some.injEq] at h
      rw [← h]
    | some e =>
      obtain ⟨i, rfl⟩ := honly argv e horc
      have hb : (i.isSome && argv.contains (some "developer")
          && !(argv.contains (some "--tunnel"))) = false := by
        rw [htun]; simp
      rw [invalid_message_step oracle argv n i horc hb] at h
      rw [← Option.some.inj h]

/-- C1 counterexample: a `cli()` that raises `RSDRequiredError` again after
the first retry makes `main` retry a second time — the re-invocation path is
not bounded to one occurrence when the rsd-required failure recurs. -/
theorem C1_counterexample :
    mainFuel rsdLoopOracle 3 [] =
      some ⟨[rsdRetryMessage, rsdRetryMessage],
        [some "--tunnel", some "ABCD-1234", some "--tunnel", some "ABCD-1234"],
        2, MainResult.ok⟩ := rfl

/-- C1 amended: the bound holds for the invalid-service kind only — when
`cli()` raises only `InvalidServiceError`, any terminating run of `main`
performs at most one re-invocation, because the rewritten argv contains the
connectivity flag and so can never satisfy the conditional predicate again.
(A recurring `RSDRequiredError` retries again each time, unboundedly.) -/
theorem C1_invalid_service_retry_bounded (oracle : List PyStr → Option PyExc)
    (honly : ∀ a e, oracle a = some e → ∃ i, e = PyExc.InvalidServiceError i)
    (fuel : Nat) (argv : List PyStr) (r : MainOutcome)
    (h : mainFuel oracle fuel argv = some r) : r.retries ≤ 1 := by
  cases fuel with
  | zero => simp [mainFuel] at h
  | succ n =>
    cases horc : oracle argv with
    | none =>
      simp only [mainFuel, horc, Option.some.injEq] at h
      rw [← h]
      exact Nat.zero_le 1
    | some e =>
      obtain ⟨i, rfl⟩ := honly argv e horc
      cases hb : (i.isSome && argv.contains (some "developer")
          && !(argv.contains (some "--tunnel"))) with
      | false =>
        rw [invalid_message_step oracle argv n i horc hb] at h
        rw [← Option.some.inj h]
        exact Nat.zero_le 1
      | true =>
        rw [invalid_retry_step oracle argv n i horc hb] at h
        cases hrec : mainFuel oracle n (argv ++ [some "--tunnel", i]) with
        | none => rw [hrec] at h; simp at h
        | some s =>
          rw [hrec] at h
          simp only [Option.map_some', Option.some.injEq] at h
          have hs : s.retries = 0 :=
            invalid_only_no_retry_with_tunnel oracle honly n (argv ++ [some "--tunnel", i]) s
              (by simp [List.contains]) hrec
          rw [← h]
          simp [hs]

/-- Witness for C1's amended theorem at `devOracle`: exactly one retry. -/
theorem C1_witness :
    mainFuel devOracle 3 devArgv = some devRun ∧ devRun.retries ≤ 1 :=
  ⟨rfl, C1_invalid_service_retry_bounded devOracle devOracle_only_invalid 3 devArgv devRun rfl⟩

/-- Every terminating run of `main` only appends to the process-global argv:
the final argv extends the starting one. -/
theorem mainFuel_argv_extends (oracle : List PyStr → Option PyExc) :
    ∀ (fuel : Nat) (argv : List PyStr) (r : MainOutcome),
      mainFuel oracle fuel argv = some r → ∃ t, r.argv = argv ++ t := by
  intro fuel
  induction fuel with
  | zero => intro argv r h; simp [mainFuel] at h
  | succ n ih =>
    intro argv r h
    cases horc : oracle argv with
    | none =>
      simp only [mainFuel, horc, Option.some.injEq] at h
      exact ⟨[], by rw [← h]; simp⟩
    | some e =>
      cases e <;> simp only [mainFuel, horc, Option.some.injEq] at h
      case InvalidServiceError i =>
        split at h
        · cases hrec : mainFuel oracle n (argv ++ [some "--tunnel", i]) with
          | none => rw [hrec] at h; simp at h
          | some s =>
            rw [hrec] at h
            simp only [Option.map_some', Option.some.injEq] at h
            obtain ⟨t, ht⟩ := ih (argv ++ [some "--tunnel", i]) s hrec
            exact ⟨[some "--tunnel", i] ++ t, by rw [← h]; simpa [List.append_assoc] using ht⟩
        · simp only [Option.some.injEq] at h
          exact ⟨[], by rw [← h]; simp⟩
      case RSDRequiredError i =>
        cases hrec : mainFuel oracle n (argv ++ [some "--tunnel", i]) with
        | none => rw [hrec] at h; simp at h
        | some s =>
          rw [hrec] at h
          simp only [Option.map_some', Option.some.injEq] at h
          obtain ⟨t, ht⟩ := ih (argv ++ [some "--tunnel", i]) s hrec
          exact ⟨[some "--tunnel", i] ++ t, by rw [← h]; simpa [List.append_assoc] using ht⟩
      all_goals exact ⟨[], by rw [← h]; simp⟩

/-- C9 counterexample: after a retried invocation completes, the
process-global argv still holds the appended connectivity flag and
identifier — the rewritten argument list is persisted, not ephemeral. -/
theorem C9_counterexample :
    mainFuel devOracle 2 devArgv =
      some ⟨[devRetryMessage],
        [some "developer", some "dvt", some "ls", some "--tunnel", some "UDID1"],
        1, MainResult.ok⟩ ∧
    ([some "developer", some "dvt", some "ls", some "--tunnel", some "UDID1"] : List PyStr)
      ≠ devArgv :=
  ⟨rfl, by decide⟩

/-- C9 amended: the rewritten argument list is written into the
process-global argv and persists after the retry completes — the final argv
of any terminating retried run extends the rewritten list (main only ever
appends to the global argv). -/
theorem C9_argv_mutation_persists (oracle : List PyStr → Option PyExc)
    (fuel : Nat) (argv : List PyStr) (identifier : Option String) (r : MainOutcome)
    (h : oracle argv = some (PyExc.InvalidServiceError identifier))
    (hb : (identifier.isSome && argv.contains (some "developer")
        && !(argv.contains (some "--tunnel"))) = true)
    (hr : mainFuel oracle (fuel + 1) argv = some r) :
    ∃ t, r.argv = (argv ++ [some "--tunnel", identifier]) ++ t := by
  rw [invalid_retry_step oracle argv fuel identifier h hb] at hr
  cases hrec : mainFuel oracle fuel (argv ++ [some "--tunnel", identifier]) with
  | none => rw [hrec] at hr; simp at hr
  | some s =>
    rw [hrec] at hr
    simp only [Option.map_some', Option.some.injEq] at hr
    obtain ⟨t, ht⟩ := mainFuel_argv_extends oracle fuel (argv ++ [some "--tunnel", identifier]) s hrec
    exact ⟨t, by rw [← hr]; exact ht⟩

/-- Witness for C9's amended theorem at the concrete scenario. -/
theorem C9_witness :
    ∃ t, devRun.argv = (devArgv ++ [some "--tunnel", some "UDID1"]) ++ t :=
  C9_argv_mutation_persists devOracle 1 devArgv (some "UDID1") devRun rfl rfl rfl

/-- C2 counterexample: a resolved group whose implementation exposes exactly
one command, named `"foo"`: `get_command` for `"bar"` returns absent, not
that command — the single-command fallback of the commented-out predecessor
class is not in the running code. -/
theorem C2_counterexample :
    gFoo.cmds.length = 1 ∧
    ImplGroup.get_command gFoo "foo" = some ⟨0⟩ ∧
    Pmd3Cli.get_command cFoo st0 "bar" = Except.ok (none, cFoo, st0) :=
  ⟨rfl, rfl, rfl⟩

/-- C2 amended: `Pmd3Cli.get_command` delegates the lookup unchanged to the
resolved implementation: the result is exactly the implementation's own
command-table lookup, absent included, with no fallback for single-command
groups. -/
theorem C2_get_command_delegates (c : Pmd3Cli) (st : ImportState) (cmd_name : String)
    (g : ImplGroup) (c2 : Pmd3Cli) (st2 : ImportState)
    (h : c.impg st = Except.ok (g, c2, st2)) :
    c.get_command st cmd_name = Except.ok (g.cmds.lookup cmd_name, c2, st2) := by
  simp [Pmd3Cli.get_command, h, ImplGroup.get_command]

/-- Witness for C2's amended theorem: the single-command group yields absent
for a name outside its table. -/
theorem C2_witness :
    Pmd3Cli.get_command cFoo st0 "bar" = Except.ok (none, cFoo, st0) :=
  C2_get_command_delegates cFoo st0 "bar" gFoo cFoo st0 rfl

/-- Association-list lookup skips a left part in which the key is absent. -/
theorem lookup_append_of_eq_none {α β : Type} [BEq α] (l1 l2 : List (α × β)) (a : α)
    (h : l1.lookup a = none) : (l1 ++ l2).lookup a = l2.lookup a := by
  induction l1 with
  | nil => simp
  | cons p l ih =>
    obtain ⟨k, v⟩ := p
    simp only [List.cons_append, List.lookup_cons] at h ⊢
    cases hk : a == k with
    | true => simp [hk] at h
    | false =>
      simp only [hk] at h ⊢
      exact ih h

/-- C4: lazy resolution with caching. Construction stores the locator and
performs no import (the cache slot starts empty, the import state is not
even an input of `__init__`); a cache hit returns the identical cached
implementation and leaves the import state untouched; a successful
resolution fills the cache slot with the returned implementation; and a
first resolution from a state in which the module is not yet loaded executes
it exactly once — the source's second `importlib.import_module` call hits
the `sys.modules` cache. -/
theorem C4_lazy_resolution_caching (s : String) (c : Pmd3Cli) (st : ImportState)
    (g : ImplGroup) :
    ((Pmd3Cli.init s)._import_name = s ∧ (Pmd3Cli.init s).impgCacheSlot = none) ∧
    (c.impgCacheSlot = some g → c.impg st = Except.ok (g, c, st)) ∧
    (∀ g2 c2 st2, c.impg st = Except.ok (g2, c2, st2) → c2.impgCacheSlot = some g2) ∧
    (∀ m a g2 c2 st2, c.impgCacheSlot = none → split1 c._import_name ':' = [m, a] →
       st.loaded.lookup m = none → c.impg st = Except.ok (g2, c2, st2) →
       st2.loadEvents = st.loadEvents ++ [m]) := by
  refine ⟨⟨rfl, rfl⟩, ?_, ?_, ?_⟩
  · intro h
    simp [Pmd3Cli.impg, h]
  · intro g2 c2 st2 h
    simp only [Pmd3Cli.impg] at h
    cases hc : c.impgCacheSlot with
    | some g1 =>
      simp only [hc] at h
      simp only [Except.ok.injEq, Prod.mk.injEq] at h
      obtain ⟨h1, h2, h3⟩ := h
      rw [← h2, hc, h1]
    | none =>
      simp only [hc] at h
      repeat' split at h
      all_goals try exact Except.noConfusion h
      simp only [Except.ok.injEq, Prod.mk.injEq] at h
      obtain ⟨h1, h2, h3⟩ := h
      rw [← h2, h1]
  · intro m a g2 c2 st2 hc hsplit hfresh h
    simp only [Pmd3Cli.impg, hc, hsplit, import_module, hfresh] at h
    cases hav : st.available.lookup m with
    | none => simp [hav] at h
    | some mod =>
      simp only [hav] at h
      cases hat : mod.attrs.lookup a with
      | none => simp [hat] at h
      | some g1 =>
        have hlk : (st.loaded ++ [(m, mod)]).lookup m = some mod := by
          rw [lookup_append_of_eq_none st.loaded _ m hfresh]
          simp [List.lookup_cons]
        simp only [hat, hlk] at h
        simp only [Except.ok.injEq, Prod.mk.injEq] at h
        obtain ⟨h1, h2, h3⟩ := h
        rw [← h3]

/-- The module of the witness registry entry, holding the `afc` group. -/
def modAfc : PyModule := ⟨[("afc", gFoo)]⟩

/-- A fresh import state in which only the afc cli module is importable. -/
def stM : ImportState := ⟨[("pymobiledevice3.cli.afc", modAfc)], [], []⟩

/-- The provider for the afc registry entry, as constructed. -/
def cAfc : Pmd3Cli := Pmd3Cli.init "pymobiledevice3.cli.afc:afc"

/-- The afc provider after its first resolution: cache slot filled. -/
def cAfc2 : Pmd3Cli := ⟨"pymobiledevice3.cli.afc:afc", some gFoo⟩

/-- The import state after the afc provider's first resolution: the module
is cached in `sys.modules` and was executed exactly once. -/
def stM2 : ImportState :=
  ⟨[("pymobiledevice3.cli.afc", modAfc)], [("pymobiledevice3.cli.afc", modAfc)],
   ["pymobiledevice3.cli.afc"]⟩

/-- Witness for C4 at concrete providers: a cache hit returns the cached
implementation unchanged, a first resolution fills the slot, and the module
is executed exactly once. -/
theorem C4_witness :
    Pmd3Cli.impg cFoo st0 = Except.ok (gFoo, cFoo, st0) ∧
    cAfc2.impgCacheSlot = some gFoo ∧
    stM2.loadEvents = stM.loadEvents ++ ["pymobiledevice3.cli.afc"] :=
  ⟨(C4_lazy_resolution_caching "x" cFoo st0 gFoo).2.1 rfl,
   (C4_lazy_resolution_caching "x" cAfc stM gFoo).2.2.1 gFoo cAfc2 stM2 rfl,
   (C4_lazy_resolution_caching "x" cAfc stM gFoo).2.2.2 "pymobiledevice3.cli.afc" "afc"
     gFoo cAfc2 stM2 rfl rfl rfl rfl⟩

/-- C5: when the locator names a module that cannot be imported, or an
attribute absent from the imported module, resolution fails with the
corresponding load error carrying the locator parts (`ImportError` with the
module path, `AttributeError` with module path and attribute name), the
error kind is outside `main`'s handler chain, and `main` lets it propagate
uncaught — the invocation is fatal, with no partial or degraded mode. -/
theorem C5_resolution_failure_fatal (c : Pmd3Cli) (st : ImportState) (m a : String)
    (hc : c.impgCacheSlot = none) (hsplit : split1 c._import_name ':' = [m, a])
    (hfresh : st.loaded.lookup m = none) :
    (st.available.lookup m = none →
       c.impg st = Except.error (PyExc.ImportError m) ∧
       handledByMain (PyExc.ImportError m) = false ∧
       (∀ oracle argv fuel, oracle argv = some (PyExc.ImportError m) →
          mainFuel oracle (fuel + 1) argv =
            some ⟨[], argv, 0, MainResult.uncaught (PyExc.ImportError m)⟩)) ∧
    (∀ mod, st.available.lookup m = some mod → mod.attrs.lookup a = none →
       c.impg st = Except.error (PyExc.AttributeError m a) ∧
       handledByMain (PyExc.AttributeError m a) = false ∧
       (∀ oracle argv fuel, oracle argv = some (PyExc.AttributeError m a) →
          mainFuel oracle (fuel + 1) argv =
            some ⟨[], argv, 0, MainResult.uncaught (PyExc.AttributeError m a)⟩)) := by
  constructor
  · intro hav
    refine ⟨?_, rfl, ?_⟩
    · simp only [Pmd3Cli.impg, hc, hsplit, import_module, hfresh, hav]
    · intro oracle argv fuel horc
      simp [mainFuel, horc]
  · intro mod hav hat
    refine ⟨?_, rfl, ?_⟩
    · simp only [Pmd3Cli.impg, hc, hsplit, import_module, hfresh, hav, hat]
    · intro oracle argv fuel horc
      simp [mainFuel, horc]

/-- A provider whose locator names a module that does not exist. -/
def cBadMod : Pmd3Cli := Pmd3Cli.init "nosuchmodule:grp"

/-- A provider whose locator names an attribute its module does not have. -/
def cBadAttr : Pmd3Cli := Pmd3Cli.init "pymobiledevice3.cli.afc:missing"

/-- Witness for C5 at concrete broken locators, including the propagation of
the load error out of `main`. -/
theorem C5_witness :
    cBadMod.impg st0 = Except.error (PyExc.ImportError "nosuchmodule") ∧
    cBadAttr.impg stM = Except.error (PyExc.AttributeError "pymobiledevice3.cli.afc" "missing") ∧
    mainFuel (fun _ => some (PyExc.ImportError "nosuchmodule")) 1 [] =
      some ⟨[], [], 0, MainResult.uncaught (PyExc.ImportError "nosuchmodule")⟩ :=
  ⟨((C5_resolution_failure_fatal cBadMod st0 "nosuchmodule" "grp" rfl rfl rfl).1 rfl).1,
   ((C5_resolution_failure_fatal cBadAttr stM "pymobiledevice3.cli.afc" "missing"
       rfl rfl rfl).2 modAfc rfl rfl).1,
   ((C5_resolution_failure_fatal cBadMod st0 "nosuchmodule" "grp" rfl rfl rfl).1 rfl).2.2
     (fun _ => some (PyExc.ImportError "nosuchmodule")) [] 0 rfl⟩